import Mathlib

/-!
Formal model of the CleanSend (OpenMsg protocol) server.

The model is a shallow embedding of the TypeScript source:

* the MySQL tables become lists of rows inside a `Store` structure; a
  `SELECT ... WHERE` is a `List.filter` followed by taking the head row,
  an `INSERT` appends a row, a `DELETE ... LIMIT 1` removes the first
  matching row, and an unlimited `DELETE` removes every matching row;
* each async handler becomes a pure function from the store (plus its
  request arguments and the oracles below) to a result together with the
  updated store;
* outbound HTTP calls are modelled by passing in the outcome of the call
  (`HttpOutcome`): either a transport failure or a status code plus a
  decoded JSON body with optional fields;
* random generation (pass codes, nonces, salts, 256-bit secrets) is
  modelled by passing the generated value in as an argument;
* the external crypto primitives (Node `crypto`) are modelled by
  operation records (`AesGcmOps`, `Base64Ops`, and a hash function
  `String → String`); the protocol functions are parametric in them and
  the theorems assume exactly the input/output contract the adapter
  relies on;
* timestamps are Unix seconds as `Int` (JavaScript number arithmetic on
  whole seconds);
* JavaScript truthiness on strings is `s ≠ ""`, on numbers `n ≠ 0`, and
  on optional JSON booleans `optTrue`.
-/

namespace CleanSend

/-- A byte, as stored in a Node `Buffer`. -/
abbrev Byte := Fin 256

/-- JavaScript truthiness of an optional JSON boolean field. -/
def optTrue : Option Bool → Bool
  | some b => b
  | none => false

/-- JavaScript template interpolation of a possibly-absent string field
(`undefined` prints as `"undefined"`). -/
def jsShow (o : Option String) : String := o.getD "undefined"

/-- JavaScript `a || b` on an optional string: the default is used when the
field is absent or empty (falsy). -/
def orDefault (o : Option String) (d : String) : String :=
  match o with
  | some s => if s = "" then d else s
  | none => d

/-- `DELETE ... WHERE p ... LIMIT 1`: remove the first row matching `p`. -/
def deleteFirst (p : α → Bool) : List α → List α
  | [] => []
  | x :: xs => if p x then xs else x :: deleteFirst p xs

/-- Split a character list at every occurrence of `sep`, JavaScript
`String.prototype.split` style (an empty input gives one empty part). -/
def splitChar (sep : Char) : List Char → List (List Char)
  | [] => [[]]
  | c :: cs =>
    let r := splitChar sep cs
    if c = sep then [] :: r
    else
      match r with
      | [] => [[c]]
      | h :: t => (c :: h) :: t

/-- JavaScript `s.split(sep)` for a one-character separator, as used on
OpenMsg addresses (`address.split('*')`). -/
def jsSplit (sep : Char) (s : String) : List String :=
  (splitChar sep s.toList).map String.mk

/-- The test of `/^\d+$/` in JavaScript: a non-empty all-digit string. -/
def isNumericStr (s : String) : Bool :=
  s ≠ "" && s.toList.all Char.isDigit

/-- Outcome of an outbound `axios.post`: either the request threw
(transport error), or a response with an HTTP status and decoded body. -/
inductive HttpOutcome (α : Type) where
  | failure (message : String)
  | response (status : Int) (data : α)
  deriving DecidableEq

/-! ## Database rows (src/unnamed/part_004, type definitions) -/

/-- Row of `openmsg_users`. -/
structure UserRow where
  self_openmsg_address : String
  self_openmsg_address_name : String
  deriving DecidableEq

/-- Row of `openmsg_passCodes`; `timestamp` is `UNIX_TIMESTAMP(timestamp)`. -/
structure PassCodeRow where
  self_openmsg_address : String
  pass_code : String
  timestamp : Int
  deriving DecidableEq

/-- Row of `openmsg_handshakes`; `timestamp` is `UNIX_TIMESTAMP(timestamp)`. -/
structure HandshakeRow where
  other_openmsg_address : String
  pass_code : String
  timestamp : Int
  deriving DecidableEq

/-- Row of `openmsg_user_connections`. -/
structure ConnectionRow where
  self_openmsg_address : String
  other_openmsg_address : String
  other_openmsg_address_name : String
  other_acceptsMessages : Bool
  auth_code : String
  ident_code : String
  message_crypt_key : String
  deriving DecidableEq

/-- Row of `openmsg_messages_outbox`. -/
structure OutboxRow where
  self_openmsg_address : String
  ident_code : String
  message_hash : String
  message_nonce : String
  message_text : String
  deriving DecidableEq

/-- Row of `openmsg_messages_sent`. -/
structure SentRow where
  self_openmsg_address : String
  ident_code : String
  message_hash : String
  message_text : String
  deriving DecidableEq

/-- Row of `openmsg_messages_inbox`. -/
structure InboxRow where
  self_openmsg_address : String
  ident_code : String
  message_hash : String
  message_text : String
  deriving DecidableEq

/-- The relational store backing one OpenMsg server. -/
structure Store where
  users : List UserRow
  passCodes : List PassCodeRow
  handshakes : List HandshakeRow
  connections : List ConnectionRow
  outbox : List OutboxRow
  sent : List SentRow
  inbox : List InboxRow
  deriving DecidableEq

/-! ## Crypto adapter (src/src/utils/crypto.ts)

The Node primitives (`crypto.createCipher('aes-256-gcm', key)`,
`Buffer` base64 codecs, SHA-256) are external collaborators; the adapter
functions below are parametric in them.  Under the deprecated
`createCipher` API the IV is derived from the key, so both the ciphertext
and the auth tag of one `update/final` run are functions of the key and
the plaintext alone (no AAD is set by `createMessagePackage` /
`decryptMessagePackage`). -/

/-- The AES-256-GCM primitive as used through `createCipher` /
`createDecipher`: ciphertext bytes and auth tag are functions of
(key, plaintext); decryption takes (key, ciphertext, tag) and returns the
plaintext, or `none` when `decipher.final` throws (bad tag / corrupt
data), which the adapter turns into the value `false`. -/
structure AesGcmOps where
  enc : String → String → List Byte
  tagOf : String → String → List Byte
  dec : String → List Byte → List Byte → Option String

/-- The Node `Buffer` base64 codec. -/
structure Base64Ops where
  enc : List Byte → String
  dec : String → List Byte

/-- Result of `createMessagePackage`: the base64 package and the base64
nonce. -/
structure MessagePackageOut where
  pkg : String
  nonce : String
  deriving DecidableEq

/-- `createMessagePackage` (crypto.ts lines 157-178): generate a 16-byte
nonce (passed in as the random oracle `nonce`), encrypt, and emit
`base64(nonce ++ ciphertext ++ authTag)`. -/
def createMessagePackage (G : AesGcmOps) (B : Base64Ops)
    (plaintext key : String) (nonce : List Byte) : MessagePackageOut :=
  let encrypted := G.enc key plaintext
  let authTag := G.tagOf key plaintext
  let packageBuffer := nonce ++ encrypted ++ authTag
  { pkg := B.enc packageBuffer, nonce := B.enc nonce }

/-- `decryptMessagePackage` (crypto.ts lines 190-215): decode the package,
split off `slice(0,16)` (the embedded nonce, which the source computes and
never uses), `slice(-16)` (auth tag) and `slice(16,-16)` (ciphertext), and
run authenticated decryption; any throw is caught and returned as the
failure value (`none` here, `false` in the source).
`slice(-16)` is `drop (len - 16)` and `slice(16,-16)` is
`(take (len - 16)).drop 16`, matching Node's clamping semantics. -/
def decryptMessagePackage (G : AesGcmOps) (B : Base64Ops)
    (packageBase64 key : String) : Option String :=
  let packageBuffer := B.dec packageBase64
  let _nonce := packageBuffer.take 16
  let authTag := packageBuffer.drop (packageBuffer.length - 16)
  let encrypted := (packageBuffer.take (packageBuffer.length - 16)).drop 16
  G.dec key encrypted authTag

/-- `createMessageHash` (crypto.ts lines 249-253): SHA-256 (the parameter
`H`) of `package ++ authCode ++ salt ++ toString timestamp`. -/
def createMessageHash (H : String → String)
    (messagePackage authCode messageSalt : String)
    (messageTimestamp : Int) : String :=
  H (messagePackage ++ authCode ++ messageSalt ++ toString messageTimestamp)

/-! ## Auth responder (src/src/setup/auth.ts) -/

/-- Decoded JSON body of an `auth/confirm` response (optional fields). -/
structure AuthConfirmResponseData where
  success : Option Bool
  error : Option Bool
  error_message : Option String
  deriving DecidableEq

/-- Result of `authCheck`: the JSON sent back by the `auth` endpoint. -/
inductive AuthResult where
  | ok (auth_code ident_code message_crypt_key receiving_name : String)
  | err (error_message : String)
  deriving DecidableEq

/-- `authCheck` (auth.ts lines 61-207).  Oracles: `now` for
`Math.floor(Date.now()/1000)`, `confirmOutcome` for the `axios.post` to
the other server's `auth/confirm`, and the three freshly generated
256-bit secrets. -/
def authCheck (domain : String) (st : Store)
    (selfId passCode otherAddr otherName : String)
    (otherAllowsReplies : Bool) (now : Int)
    (confirmOutcome : HttpOutcome AuthConfirmResponseData)
    (authCode identCode messageCryptKey : String) : AuthResult × Store :=
  if selfId = "" ∨ passCode = "" ∨ otherAddr = "" ∨ otherName = "" then
    (.err ("self_openmsg_address_id, pass_code, other_openmsg_address and other_openmsg_address_name cannot be blank :: " ++
      selfId ++ ", " ++ passCode ++ ", " ++ otherAddr ++ ", " ++ otherName), st)
  else
    let selfAddr := selfId ++ "*" ++ domain
    match st.users.filter (fun u => u.self_openmsg_address == selfAddr) with
    | [] => (.err "User not found", st)
    | u :: _ =>
      let selfName := u.self_openmsg_address_name
      let pcMatch : PassCodeRow → Bool := fun r =>
        r.self_openmsg_address == selfAddr && r.pass_code == passCode
      match st.passCodes.filter pcMatch with
      | [] => (.err "pass code not valid", st)
      | pc :: _ =>
        if pc.timestamp < now - 3600 then
          (.err "expired pass code, over 1 hour old", st)
        else
          let st1 := { st with passCodes := deleteFirst pcMatch st.passCodes }
          match jsSplit (Char.ofNat 42) otherAddr with
          | [otherIdPart, _otherDomainPart] =>
            if ¬ isNumericStr otherIdPart then
              (.err "other_openmsg_address_id should be numeric", st1)
            else
              match confirmOutcome with
              | .failure msg => (.err ("Error. Request error: " ++ msg), st1)
              | .response status data =>
                if status ≠ 200 then
                  (.err ("Error. Response status: " ++ toString status), st1)
                else if optTrue data.error then
                  (.err ("Error: " ++ jsShow data.error_message), st1)
                else if data.success ≠ some true then
                  (.err "Error: Unsuccessful from /auth/", st1)
                else
                  let st2 := { st1 with connections :=
                    st1.connections.filter (fun c =>
                      ¬ (c.self_openmsg_address == selfAddr
                          && c.other_openmsg_address == otherAddr)) ++
                    [{ self_openmsg_address := selfAddr
                       other_openmsg_address := otherAddr
                       other_openmsg_address_name := otherName
                       other_acceptsMessages := otherAllowsReplies
                       auth_code := authCode
                       ident_code := identCode
                       message_crypt_key := messageCryptKey }] }
                  (.ok authCode identCode messageCryptKey selfName, st2)
          | _ => (.err "Invalid openmsg address format", st1)

/-- Result of `authConfirm`: the JSON sent back by `auth/confirm`. -/
inductive ConfirmResult where
  | ok
  | err (error_message : String)
  deriving DecidableEq

/-- `authConfirm` (auth.ts lines 209-250): look up the HandshakeRecord by
`(other_openmsg_address, pass_code)`; absent ⇒ error; older than 60
seconds ⇒ error; otherwise delete it (`LIMIT 1`) and succeed. -/
def authConfirm (st : Store) (otherAddr passCode : String)
    (now : Int) : ConfirmResult × Store :=
  let hsMatch : HandshakeRow → Bool := fun h =>
    h.other_openmsg_address == otherAddr && h.pass_code == passCode
  match st.handshakes.filter hsMatch with
  | [] => (.err ("unknown pending authorization with " ++ otherAddr ++ ", " ++ passCode), st)
  | r :: _ =>
    if r.timestamp < now - 60 then
      (.err "expired handshake, over 60 seconds old", st)
    else
      (.ok, { st with handshakes := deleteFirst hsMatch st.handshakes })

/-! ## Message receiver and confirm responder (src/src/setup/messages.ts) -/

/-- Decoded JSON body of a `message/confirm` response (optional fields). -/
structure MessageConfirmResponseData where
  success : Option Bool
  error : Option Bool
  error_message : Option String
  deriving DecidableEq

/-- Result of `messageCheck`: the JSON sent back by `message/receive`. -/
inductive MsgReceiveResult where
  | ok (response_code : String)
  | err (response_code : String) (error_message : String)
  deriving DecidableEq

/-- `messageCheck` (messages.ts lines 133-280).  Oracles: `now` for the
current Unix time and `confirmOutcome` for the `axios.post` to the
sending domain's `message/confirm`.  The branch order is exactly the
source's: missing data, connection lookup (`SM_E001`), blank connection
fields (`SM_E001`), sender address format (`SM_E003`), hash check
(`SM_E004`), freshness check (`SM_E005`), confirm round trip (`SM_E000`),
decryption (`SM_E005`), inbox insert, success (`SM_S888`). -/
def messageCheck (domain : String) (H : String → String)
    (G : AesGcmOps) (B : Base64Ops) (st : Store)
    (receivingId identCode messagePackage messageHash messageSalt : String)
    (messageTimestamp : Int) (now : Int)
    (confirmOutcome : HttpOutcome MessageConfirmResponseData) :
    MsgReceiveResult × Store :=
  if receivingId = "" ∨ identCode = "" ∨ messagePackage = "" ∨
      messageHash = "" ∨ messageSalt = "" ∨ messageTimestamp = 0 then
    (.err "SM_E000" "Missing data (wMv4J)", st)
  else
    let receivingAddr := receivingId ++ "*" ++ domain
    match st.connections.filter (fun c =>
        c.self_openmsg_address == receivingAddr && c.ident_code == identCode) with
    | [] =>
      (.err "SM_E001" ("Could not find user: " ++ receivingAddr ++ " (rB6Xl)"), st)
    | c :: _ =>
      if c.auth_code = "" ∨ c.message_crypt_key = "" ∨ c.other_openmsg_address = "" then
        (.err "SM_E001" ("Missing connection data for: " ++ receivingAddr ++ " (rB6Xl)"), st)
      else
        match jsSplit (Char.ofNat 42) c.other_openmsg_address with
        | [_senderId, sendingDomain] =>
          let expectedHash :=
            createMessageHash H messagePackage c.auth_code messageSalt messageTimestamp
          if messageHash ≠ expectedHash then
            (.err "SM_E004" "Authorization hash mismatch (4NxWV)", st)
          else if messageTimestamp + 60 < now then
            (.err "SM_E005" "Hash is too old (kmqVE)", st)
          else
            let decodedPackage := B.dec messagePackage
            let _messageNonce := B.enc (decodedPackage.take 16)
            match confirmOutcome with
            | .failure msg =>
              (.err "SM_E000" ("Request failed: " ++ msg ++ " (vSiFb)"), st)
            | .response status data =>
              if status ≠ 200 ∨ optTrue data.error ∨ data.success ≠ some true then
                (.err "SM_E000"
                  (orDefault data.error_message
                    ("Error confirming message from " ++ sendingDomain)), st)
              else
                match decryptMessagePackage G B messagePackage c.message_crypt_key with
                | none => (.err "SM_E005" "Invalid key or corrupt message (QctWn)", st)
                | some decrypted =>
                  (.ok "SM_S888",
                   { st with inbox := st.inbox ++
                      [{ self_openmsg_address := receivingAddr
                         ident_code := identCode
                         message_hash := messageHash
                         message_text := decrypted }] })
        | _ => (.err "SM_E003" "Invalid sending address format", st)

/-- The outbox lookup predicate shared by `message/confirm` and the
sender-side `DELETE`. -/
def outboxMatch (messageHash messageNonce : String) : OutboxRow → Bool :=
  fun r => r.message_hash == messageHash && r.message_nonce == messageNonce

/-- `messageConfirm` (messages.ts lines 298-339): look up the OutboxEntry
by `(message_hash, message_nonce)`; absent ⇒ error; present ⇒ copy it to
the sent archive, delete it from the outbox (`LIMIT 1`), and succeed. -/
def messageConfirm (st : Store) (messageHash messageNonce : String) :
    ConfirmResult × Store :=
  match st.outbox.filter (outboxMatch messageHash messageNonce) with
  | [] => (.err ("Message not found in outbox: " ++ messageHash), st)
  | message :: _ =>
    let st1 := { st with sent := st.sent ++
      [SentRow.mk message.self_openmsg_address message.ident_code
        message.message_hash message.message_text] }
    let st2 := { st1 with
      outbox := deleteFirst (outboxMatch messageHash messageNonce) st1.outbox }
    (.ok, st2)

/-- `messageConfirm`, variant of src/unnamed/part_000 lines 224-250: the
same outbox lookup, but the responder does not mutate the store — the
Outbox→Sent transition is left to the sender's own post-response step. -/
def messageConfirmLookupOnly (st : Store) (messageHash messageNonce : String) :
    ConfirmResult × Store :=
  match st.outbox.filter (outboxMatch messageHash messageNonce) with
  | [] => (.err "Message not found or already confirmed", st)
  | _ :: _ => (.ok, st)

/-! ## Message sender (src/src/setup/setup.ts) -/

/-- Decoded JSON body of a `message/receive` response (optional fields). -/
structure MessageReceiveResponseData where
  success : Option Bool
  error : Option Bool
  response_code : Option String
  error_message : Option String
  deriving DecidableEq

/-- `sendMessage` (setup.ts lines 279-384).  Oracles: `nonce` and
`messageSalt` for the random generators, `now` for the timestamp, and
`outcome` for the `axios.post` to the recipient's `message/receive`.
The OutboxEntry is inserted before transmission; on transport error or a
non-success response the function returns the failure with the outbox
row still in place and writes nothing else. -/
def sendMessage (H : String → String) (G : AesGcmOps) (B : Base64Ops)
    (st : Store) (messageText sendingAddr receivingAddr : String)
    (nonce : List Byte) (messageSalt : String) (now : Int)
    (outcome : HttpOutcome MessageReceiveResponseData) :
    MsgReceiveResult × Store :=
  match st.connections.filter (fun c =>
      c.self_openmsg_address == sendingAddr
        && c.other_openmsg_address == receivingAddr) with
  | [] =>
    (.err "SM_E001" ("No matching connection between these users: " ++
      sendingAddr ++ ", " ++ receivingAddr ++ " (Qmyxm)"), st)
  | c :: _ =>
    match jsSplit (Char.ofNat 42) receivingAddr with
    | [_receivingId, _receivingDomain] =>
      let mp := createMessagePackage G B messageText c.message_crypt_key nonce
      let messageTimestamp := now
      let messageHash :=
        createMessageHash H mp.pkg c.auth_code messageSalt messageTimestamp
      let st1 := { st with outbox := st.outbox ++
        [{ self_openmsg_address := sendingAddr
           ident_code := c.ident_code
           message_hash := messageHash
           message_nonce := mp.nonce
           message_text := messageText }] }
      match outcome with
      | .failure msg =>
        (.err "SM_E000" ("Request failed: " ++ msg), st1)
      | .response status data =>
        if status ≠ 200 ∨ optTrue data.error then
          (.err (orDefault data.response_code "SM_E000")
            (orDefault data.error_message "Message delivery failed"), st1)
        else
          (.ok (orDefault data.response_code "SM_S888"), st1)
    | _ => (.err "SM_E003" "Invalid receiving address format", st)

/-! ## Result observers and failure predicates -/

/-- Whether an `authCheck` result is an application-level error. -/
def AuthResult.isErr : AuthResult → Bool
  | .ok _ _ _ _ => false
  | .err _ => true

/-- The `response_code` field of a `message/receive` or `send-message`
response. -/
def MsgReceiveResult.respCode : MsgReceiveResult → String
  | .ok c => c
  | .err c _ => c

/-- Whether a `message/receive` result is an application-level error. -/
def MsgReceiveResult.isErr : MsgReceiveResult → Bool
  | .ok _ => false
  | .err _ _ => true

/-- The ways the `auth/confirm` callback round trip can fail to succeed,
exactly as `authCheck` tests them: transport error, non-200 status,
remote error flag, or missing/false success flag. -/
def confirmNotSuccess : HttpOutcome AuthConfirmResponseData → Prop
  | .failure _ => True
  | .response status data =>
    status ≠ 200 ∨ optTrue data.error = true ∨ data.success ≠ some true

/-- The ways the `message/receive` POST of `sendMessage` can fail at the
transport level: request threw, or the response status is not 200. -/
def receiveTransportFail : HttpOutcome MessageReceiveResponseData → Prop
  | .failure _ => True
  | .response status _ => status ≠ 200

/-! ## Concrete fixtures used by the witness theorems -/

/-- Concrete single-handshake store. -/
def hsStore : Store :=
  { users := [], passCodes := [],
    handshakes := [⟨"1000001*alpha.com", "123456", 5000⟩],
    connections := [], outbox := [], sent := [], inbox := [] }

/-- Concrete store holding one user and one fresh PassCode. -/
def authStore : Store :=
  { users := [⟨"7*beta.com", "Bob"⟩],
    passCodes := [⟨"7*beta.com", "123456", 1000⟩],
    handshakes := [], connections := [], outbox := [], sent := [], inbox := [] }

/-- A successful `auth/confirm` response body. -/
def confirmOkData : AuthConfirmResponseData := ⟨some true, none, none⟩

/-- A successful `message/confirm` response body. -/
def msgConfirmOkData : MessageConfirmResponseData := ⟨some true, none, none⟩

/-- A concrete stand-in for the SHA-256 collaborator in witnesses (the
protocol functions only compare its outputs for equality). -/
def witHash : String → String := fun s => "sha256:" ++ s

/-- A degenerate AES-GCM instance whose decryption always fails. -/
def emptyGcm : AesGcmOps := ⟨fun _ _ => [], fun _ _ => [], fun _ _ _ => none⟩

/-- A concrete AES-GCM instance whose decryption returns `"hello"`. -/
def helloGcm : AesGcmOps := ⟨fun _ _ => [], fun _ _ => [], fun _ _ _ => some "hello"⟩

/-- A degenerate base64 codec (the receive path only feeds its output to
the confirm-request oracle). -/
def emptyB64 : Base64Ops := ⟨fun _ => "", fun _ => []⟩

/-- Concrete store holding one Connection for the message receiver. -/
def msgStore : Store :=
  { users := [], passCodes := [], handshakes := [],
    connections := [⟨"5*beta.com", "9*alpha.com", "Alice", true, "AUTH", "IDENT", "KEY"⟩],
    outbox := [], sent := [], inbox := [] }

/-- Concrete store holding one OutboxEntry for the confirm responder. -/
def outboxStore : Store :=
  { users := [], passCodes := [], handshakes := [], connections := [],
    outbox := [⟨"5*beta.com", "IDENT", "H1", "N1", "hi"⟩],
    sent := [], inbox := [] }

/-- Concrete store holding one Connection for the message sender. -/
def sendStore : Store :=
  { users := [], passCodes := [], handshakes := [],
    connections := [⟨"1*alpha.com", "5*beta.com", "Bob", true, "AUTH", "IDENT", "KEY"⟩],
    outbox := [], sent := [], inbox := [] }

/-- Concrete AES-GCM instance for the round-trip witness: key `"k1"`
encrypts `"hello"` to ciphertext `[7]` with tag `1^16`; decryption
recognises exactly that triple. -/
def w4Gcm : AesGcmOps :=
  ⟨fun _ _ => [7], fun _ _ => List.replicate 16 1,
   fun key c t =>
     if key = "k1" ∧ c = [7] ∧ t = List.replicate 16 1 then some "hello" else none⟩

/-- Concrete base64 codec matching `w4Gcm`'s single package. -/
def w4B64 : Base64Ops :=
  ⟨fun _ => "PKG4",
   fun s => if s = "PKG4" then
      List.replicate 16 0 ++ [7] ++ List.replicate 16 1 else []⟩

/-- Concrete base64 codec decoding two packages that differ exactly in
their 16 leading (nonce) bytes. -/
def w10B64 : Base64Ops :=
  ⟨fun _ => "",
   fun s =>
     if s = "P1" then List.replicate 16 0 ++ List.replicate 17 1
     else if s = "P2" then List.replicate 16 2 ++ List.replicate 17 1
     else []⟩

/-- An AES-GCM instance whose decryption depends on the ciphertext and
tag bytes it is given (used to instantiate the nonce-independence
theorem non-vacuously). -/
def w10Gcm : AesGcmOps :=
  ⟨fun _ _ => [], fun _ _ => [],
   fun _ c t => if c.length = 1 ∧ t.length = 16 then some "m" else none⟩

/-! ## Helper lemmas -/

/-- Removing the first row matching `p` drops exactly the head of the
matching rows: a `SELECT` after a `DELETE ... LIMIT 1` sees the tail. -/
theorem filter_deleteFirst (p : α → Bool) (l : List α) :
    (deleteFirst p l).filter p = (l.filter p).tail := by
  induction l with
  | nil => rfl
  | cons x xs ih =>
    by_cases h : p x
    · simp [deleteFirst, h, List.filter_cons, List.tail]
    · simp [deleteFirst, h, List.filter_cons, ih]

/-- The two slices `decryptMessagePackage` actually uses invert the
`nonce ++ ciphertext ++ tag` layout of `createMessagePackage`. -/
theorem package_slices (nonce enc tag : List Byte)
    (hn : nonce.length = 16) (htag : tag.length = 16) :
    (nonce ++ enc ++ tag).drop ((nonce ++ enc ++ tag).length - 16) = tag ∧
    ((nonce ++ enc ++ tag).take ((nonce ++ enc ++ tag).length - 16)).drop 16 = enc := by
  have hassoc : nonce ++ enc ++ tag = (nonce ++ enc) ++ tag := by
    rw [List.append_assoc]
  have hlen : (nonce ++ enc ++ tag).length - 16 = (nonce ++ enc).length := by
    simp only [List.length_append, hn, htag]
    omega
  constructor
  · rw [hlen, hassoc, List.drop_left]
  · rw [hlen, hassoc, List.take_left, ← hn, List.drop_left]

/-! ## C3: handshake freshness window and one-shot confirm -/

/-- C3: a HandshakeRecord created at time `T` is accepted by
`auth/confirm` at `T+59` seconds and rejected as expired at `T+61`
seconds; the record is deleted on the first successful confirm, so a
second confirm call for the same record (at any later time) always fails
with the not-found error. -/
theorem C3_handshake_window_one_shot
    (st : Store) (addr code : String) (r : HandshakeRow)
    (hfilter : st.handshakes.filter (fun h =>
      h.other_openmsg_address == addr && h.pass_code == code) = [r]) :
    (authConfirm st addr code (r.timestamp + 59)).1 = .ok ∧
    (authConfirm st addr code (r.timestamp + 61)).1 =
      .err "expired handshake, over 60 seconds old" ∧
    ∀ now2 : Int,
      (authConfirm (authConfirm st addr code (r.timestamp + 59)).2
        addr code now2).1 =
      .err ("unknown pending authorization with " ++ addr ++ ", " ++ code) := by
  have hexp59 : ¬ (r.timestamp < r.timestamp + 59 - 60) := by omega
  have hexp61 : r.timestamp < r.timestamp + 61 - 60 := by omega
  have hdel : (deleteFirst (fun h =>
      h.other_openmsg_address == addr && h.pass_code == code)
        st.handshakes).filter (fun h =>
      h.other_openmsg_address == addr && h.pass_code == code) = [] := by
    rw [filter_deleteFirst, hfilter]
    rfl
  refine ⟨?_, ?_, ?_⟩
  · simp [authConfirm, hfilter, hexp59]
  · simp [authConfirm, hfilter, hexp61]
  · intro now2
    simp [authConfirm, hfilter, hexp59, hdel]

/-- Witness for C3 at a concrete single-record store. -/
theorem C3_witness :
    (authConfirm hsStore "1000001*alpha.com" "123456" (5000 + 59)).1 = .ok ∧
    (authConfirm hsStore "1000001*alpha.com" "123456" (5000 + 61)).1 =
      .err "expired handshake, over 60 seconds old" ∧
    (authConfirm (authConfirm hsStore "1000001*alpha.com" "123456" (5000 + 59)).2
      "1000001*alpha.com" "123456" 999999).1 =
      .err ("unknown pending authorization with " ++ "1000001*alpha.com" ++ ", " ++ "123456") := by
  have h := C3_handshake_window_one_shot hsStore "1000001*alpha.com" "123456"
    ⟨"1000001*alpha.com", "123456", 5000⟩ (by decide)
  exact ⟨h.1, h.2.1, h.2.2 999999⟩

/-! ## The auth responder's success path -/

/-- Full run of `authCheck` when every check passes and the confirm
round trip succeeds: the result carries the generated secrets, the
PassCode row is consumed, and the Connection for the pair is replaced. -/
theorem authCheck_success
    (domain : String) (st : Store) (selfId code otherAddr otherName : String)
    (b : Bool) (now : Int) (data : AuthConfirmResponseData)
    (a i m : String) (u : UserRow) (urest : List UserRow)
    (pc : PassCodeRow) (pcrest : List PassCodeRow) (oid odom : String)
    (h1 : selfId ≠ "") (h2 : code ≠ "") (h3 : otherAddr ≠ "") (h4 : otherName ≠ "")
    (husers : st.users.filter (fun x =>
      x.self_openmsg_address == selfId ++ "*" ++ domain) = u :: urest)
    (hpc : st.passCodes.filter (fun r =>
      r.self_openmsg_address == selfId ++ "*" ++ domain
        && r.pass_code == code) = pc :: pcrest)
    (hfresh : ¬ (pc.timestamp < now - 3600))
    (haddr : jsSplit (Char.ofNat 42) otherAddr = [oid, odom])
    (hnum : isNumericStr oid = true)
    (herr : optTrue data.error = false)
    (hsucc : data.success = some true) :
    authCheck domain st selfId code otherAddr otherName b now
      (.response 200 data) a i m =
    (.ok a i m u.self_openmsg_address_name,
     { st with
        passCodes := deleteFirst (fun r =>
          r.self_openmsg_address == selfId ++ "*" ++ domain
            && r.pass_code == code) st.passCodes
        connections := st.connections.filter (fun c =>
          ¬ (c.self_openmsg_address == selfId ++ "*" ++ domain
              && c.other_openmsg_address == otherAddr)) ++
          [ConnectionRow.mk (selfId ++ "*" ++ domain) otherAddr otherName b a i m] }) := by
  simp [authCheck, h1, h2, h3, h4, husers, hpc, hfresh, haddr, hnum, herr, hsucc]

/-! ## C9: PassCode freshness window -/

/-- C9: a PassCode issued at time `T` is still accepted by the Auth
Responder at `T+3599` seconds (the whole call succeeds, given a valid
user, a valid other address and a successful confirm round trip), and at
`T+3601` seconds it is rejected with the expired-pass-code error with the
store completely unchanged — the expiry check runs before the PassCode
row is consumed, so the row is still present after the rejection. -/
theorem C9_passcode_window
    (domain : String) (st : Store) (selfId code otherAddr otherName : String)
    (b : Bool) (data : AuthConfirmResponseData)
    (a i m : String) (u : UserRow) (urest : List UserRow)
    (pc : PassCodeRow) (pcrest : List PassCodeRow) (oid odom : String)
    (h1 : selfId ≠ "") (h2 : code ≠ "") (h3 : otherAddr ≠ "") (h4 : otherName ≠ "")
    (husers : st.users.filter (fun x =>
      x.self_openmsg_address == selfId ++ "*" ++ domain) = u :: urest)
    (hpc : st.passCodes.filter (fun r =>
      r.self_openmsg_address == selfId ++ "*" ++ domain
        && r.pass_code == code) = pc :: pcrest)
    (haddr : jsSplit (Char.ofNat 42) otherAddr = [oid, odom])
    (hnum : isNumericStr oid = true)
    (herr : optTrue data.error = false)
    (hsucc : data.success = some true) :
    (authCheck domain st selfId code otherAddr otherName b (pc.timestamp + 3599)
      (.response 200 data) a i m).1 = .ok a i m u.self_openmsg_address_name ∧
    authCheck domain st selfId code otherAddr otherName b (pc.timestamp + 3601)
      (.response 200 data) a i m =
      (.err "expired pass code, over 1 hour old", st) := by
  constructor
  · rw [authCheck_success domain st selfId code otherAddr otherName b
      (pc.timestamp + 3599) data a i m u urest pc pcrest oid odom
      h1 h2 h3 h4 husers hpc (by omega) haddr hnum herr hsucc]
  · have hexp : pc.timestamp < pc.timestamp + 3601 - 3600 := by omega
    simp [authCheck, h1, h2, h3, h4, husers, hpc, hexp]

/-- Witness for C9 at a concrete store whose PassCode was issued at
Unix time 1000. -/
theorem C9_witness :
    (authCheck "beta.com" authStore "7" "123456" "1*alpha.com" "Alice" true
      (1000 + 3599) (.response 200 confirmOkData) "A" "I" "M").1 =
      .ok "A" "I" "M" "Bob" ∧
    authCheck "beta.com" authStore "7" "123456" "1*alpha.com" "Alice" true
      (1000 + 3601) (.response 200 confirmOkData) "A" "I" "M" =
      (.err "expired pass code, over 1 hour old", authStore) := by
  exact C9_passcode_window "beta.com" authStore "7" "123456" "1*alpha.com" "Alice"
    true confirmOkData "A" "I" "M" ⟨"7*beta.com", "Bob"⟩ []
    ⟨"7*beta.com", "123456", 1000⟩ [] "1" "alpha.com"
    (by decide) (by decide) (by decide) (by decide) (by decide) (by decide)
    (by decide) (by decide) (by decide) (by decide)

/-! ## C2: PassCode single use -/

/-- C2: for a freshly issued PassCode (the unique row matching the
`(owner_address, code)` lookup), an `auth` call presenting the correct
pair succeeds (given a valid user, other address, and confirm round
trip), and because the Auth Responder deletes the PassCode row at
redemption, an immediately repeated `auth` call with the same code — with
any arguments, confirm outcome, and time — fails with the
invalid-pass-code error. -/
theorem C2_passcode_single_use
    (domain : String) (st : Store) (selfId code otherAddr otherName : String)
    (b : Bool) (now : Int) (data : AuthConfirmResponseData)
    (a i m : String) (u : UserRow) (urest : List UserRow)
    (pc : PassCodeRow) (oid odom : String)
    (otherAddr2 otherName2 : String) (b2 : Bool) (now2 : Int)
    (outcome2 : HttpOutcome AuthConfirmResponseData) (a2 i2 m2 : String)
    (h1 : selfId ≠ "") (h2 : code ≠ "") (h3 : otherAddr ≠ "") (h4 : otherName ≠ "")
    (h3' : otherAddr2 ≠ "") (h4' : otherName2 ≠ "")
    (husers : st.users.filter (fun x =>
      x.self_openmsg_address == selfId ++ "*" ++ domain) = u :: urest)
    (hpc : st.passCodes.filter (fun r =>
      r.self_openmsg_address == selfId ++ "*" ++ domain
        && r.pass_code == code) = [pc])
    (hfresh : ¬ (pc.timestamp < now - 3600))
    (haddr : jsSplit (Char.ofNat 42) otherAddr = [oid, odom])
    (hnum : isNumericStr oid = true)
    (herr : optTrue data.error = false)
    (hsucc : data.success = some true) :
    (authCheck domain st selfId code otherAddr otherName b now
      (.response 200 data) a i m).1 = .ok a i m u.self_openmsg_address_name ∧
    (authCheck domain
      (authCheck domain st selfId code otherAddr otherName b now
        (.response 200 data) a i m).2
      selfId code otherAddr2 otherName2 b2 now2 outcome2 a2 i2 m2).1 =
      .err "pass code not valid" := by
  have hrun := authCheck_success domain st selfId code otherAddr otherName b now
    data a i m u urest pc [] oid odom h1 h2 h3 h4 husers hpc hfresh haddr hnum
    herr hsucc
  have hdel : (deleteFirst (fun r =>
      r.self_openmsg_address == selfId ++ "*" ++ domain
        && r.pass_code == code) st.passCodes).filter (fun r =>
      r.self_openmsg_address == selfId ++ "*" ++ domain
        && r.pass_code == code) = [] := by
    rw [filter_deleteFirst, hpc]
    rfl
  rw [hrun]
  refine ⟨rfl, ?_⟩
  simp [authCheck, h1, h2, h3', h4', husers, hdel]

/-- Witness for C2: the first call redeems the code, the repeat fails. -/
theorem C2_witness :
    (authCheck "beta.com" authStore "7" "123456" "1*alpha.com" "Alice" true 1500
      (.response 200 confirmOkData) "A" "I" "M").1 = .ok "A" "I" "M" "Bob" ∧
    (authCheck "beta.com"
      (authCheck "beta.com" authStore "7" "123456" "1*alpha.com" "Alice" true 1500
        (.response 200 confirmOkData) "A" "I" "M").2
      "7" "123456" "2*gamma.com" "Carol" false 1600
      (.response 200 confirmOkData) "X" "Y" "Z").1 =
      .err "pass code not valid" := by
  exact C2_passcode_single_use "beta.com" authStore "7" "123456" "1*alpha.com"
    "Alice" true 1500 confirmOkData "A" "I" "M" ⟨"7*beta.com", "Bob"⟩ []
    ⟨"7*beta.com", "123456", 1000⟩ "1" "alpha.com"
    "2*gamma.com" "Carol" false 1600 (.response 200 confirmOkData) "X" "Y" "Z"
    (by decide) (by decide) (by decide) (by decide) (by decide) (by decide)
    (by decide) (by decide) (by decide) (by decide) (by decide) (by decide)
    (by decide)

/-! ## C5: confirm-callback failure writes no Connection -/

/-- C5: when the Auth Responder's callback to the initiator's
`auth/confirm` endpoint does not succeed (transport error, non-200
status, remote error flag, or missing success flag), `authCheck` returns
an error and the final store differs from the initial one only in the
consumed PassCode row — in particular no Connection row is deleted or
inserted. -/
theorem C5_confirm_failure_only_passcode_consumed
    (domain : String) (st : Store) (selfId code otherAddr otherName : String)
    (b : Bool) (now : Int)
    (outcome : HttpOutcome AuthConfirmResponseData)
    (a i m : String) (u : UserRow) (urest : List UserRow)
    (pc : PassCodeRow) (pcrest : List PassCodeRow) (oid odom : String)
    (h1 : selfId ≠ "") (h2 : code ≠ "") (h3 : otherAddr ≠ "") (h4 : otherName ≠ "")
    (husers : st.users.filter (fun x =>
      x.self_openmsg_address == selfId ++ "*" ++ domain) = u :: urest)
    (hpc : st.passCodes.filter (fun r =>
      r.self_openmsg_address == selfId ++ "*" ++ domain
        && r.pass_code == code) = pc :: pcrest)
    (hfresh : ¬ (pc.timestamp < now - 3600))
    (haddr : jsSplit (Char.ofNat 42) otherAddr = [oid, odom])
    (hnum : isNumericStr oid = true)
    (hfail : confirmNotSuccess outcome) :
    (authCheck domain st selfId code otherAddr otherName b now
      outcome a i m).1.isErr = true ∧
    (authCheck domain st selfId code otherAddr otherName b now
      outcome a i m).2 =
    { st with passCodes := deleteFirst (fun r =>
        r.self_openmsg_address == selfId ++ "*" ++ domain
          && r.pass_code == code) st.passCodes } := by
  cases outcome with
  | failure msg =>
    constructor <;>
      simp [authCheck, h1, h2, h3, h4, husers, hpc, hfresh, haddr, hnum,
        AuthResult.isErr]
  | response status data =>
    by_cases hs : status = 200
    · subst hs
      rcases hfail with hs' | herrT | hsuccF
      · exact absurd rfl hs'
      · constructor <;>
          simp [authCheck, h1, h2, h3, h4, husers, hpc, hfresh, haddr, hnum,
            herrT, AuthResult.isErr]
      · by_cases herrT : optTrue data.error = true
        · constructor <;>
            simp [authCheck, h1, h2, h3, h4, husers, hpc, hfresh, haddr, hnum,
              herrT, AuthResult.isErr]
        · constructor <;>
            simp [authCheck, h1, h2, h3, h4, husers, hpc, hfresh, haddr, hnum,
              herrT, hsuccF, AuthResult.isErr]
    · constructor <;>
        simp [authCheck, h1, h2, h3, h4, husers, hpc, hfresh, haddr, hnum,
          hs, AuthResult.isErr]

/-- Witness for C5 with a transport failure on the confirm callback. -/
theorem C5_witness :
    (authCheck "beta.com" authStore "7" "123456" "1*alpha.com" "Alice" true 1500
      (.failure "timeout of 10000ms exceeded") "A" "I" "M").1.isErr = true ∧
    (authCheck "beta.com" authStore "7" "123456" "1*alpha.com" "Alice" true 1500
      (.failure "timeout of 10000ms exceeded") "A" "I" "M").2 =
    { authStore with passCodes := deleteFirst (fun r =>
        r.self_openmsg_address == "7" ++ "*" ++ "beta.com"
          && r.pass_code == "123456") authStore.passCodes } := by
  exact C5_confirm_failure_only_passcode_consumed "beta.com" authStore "7"
    "123456" "1*alpha.com" "Alice" true 1500 (.failure "timeout of 10000ms exceeded")
    "A" "I" "M" ⟨"7*beta.com", "Bob"⟩ [] ⟨"7*beta.com", "123456", 1000⟩ []
    "1" "alpha.com" (by decide) (by decide) (by decide) (by decide) (by decide)
    (by decide) (by decide) (by decide) (by decide) trivial

/-! ## C6: unknown ident_code -/

/-- C6 as stated is false: at a concrete receive call whose `ident_code`
matches no Connection row for the resolved local address, the receiver
fails with response code `SM_E001` (connection/user not found), not
`SM_E002` (sender not authorized). -/
theorem C6_counterexample :
    (messageCheck "beta.com" witHash emptyGcm emptyB64 msgStore
      "5" "WRONG" "PKG" "HASH" "SALT" 100 100
      (.response 200 msgConfirmOkData)).1 =
      .err "SM_E001" ("Could not find user: " ++ "5*beta.com" ++ " (rB6Xl)") ∧
    (messageCheck "beta.com" witHash emptyGcm emptyB64 msgStore
      "5" "WRONG" "PKG" "HASH" "SALT" 100 100
      (.response 200 msgConfirmOkData)).1.respCode ≠ "SM_E002" := by
  constructor
  · decide
  · decide

/-- C6 amended: a receive call whose `ident_code` matches no Connection
row for the resolved local address fails with the connection-not-found
outcome, whose response code is `SM_E001` (the source reserves `SM_E002`
but does not emit it on this branch); the store is unchanged. -/
theorem C6_unknown_ident_code
    (domain : String) (H : String → String) (G : AesGcmOps) (B : Base64Ops)
    (st : Store) (recvId ident pkg hash salt : String) (ts now : Int)
    (outcome : HttpOutcome MessageConfirmResponseData)
    (hrid : recvId ≠ "") (hic : ident ≠ "") (hpkg : pkg ≠ "")
    (hhash : hash ≠ "") (hsalt : salt ≠ "") (hts : ts ≠ 0)
    (hconn : st.connections.filter (fun c =>
      c.self_openmsg_address == recvId ++ "*" ++ domain
        && c.ident_code == ident) = []) :
    messageCheck domain H G B st recvId ident pkg hash salt ts now outcome =
    (.err "SM_E001" ("Could not find user: " ++ (recvId ++ "*" ++ domain) ++ " (rB6Xl)"),
     st) := by
  simp [messageCheck, hrid, hic, hpkg, hhash, hsalt, hts, hconn]

/-- Witness for the amended C6. -/
theorem C6_witness :
    messageCheck "beta.com" witHash emptyGcm emptyB64 msgStore
      "5" "WRONG2" "PKG" "HASH" "SALT" 100 100
      (.response 200 msgConfirmOkData) =
    (.err "SM_E001" ("Could not find user: " ++ ("5" ++ "*" ++ "beta.com") ++ " (rB6Xl)"),
     msgStore) := by
  exact C6_unknown_ident_code "beta.com" witHash emptyGcm emptyB64 msgStore
    "5" "WRONG2" "PKG" "HASH" "SALT" 100 100 (.response 200 msgConfirmOkData)
    (by decide) (by decide) (by decide) (by decide) (by decide) (by decide)
    (by decide)

/-! ## C1: message freshness window -/

/-- C1 as stated is false in its "regardless of whether the supplied
hash is correct" part: at a concrete receive call with
`timestamp = now - 61` and an incorrect hash, the receiver rejects with
`SM_E004` (hash mismatch), not `SM_E005` — the hash check runs before the
freshness check. -/
theorem C1_counterexample :
    (messageCheck "beta.com" witHash emptyGcm emptyB64 msgStore
      "5" "IDENT" "PKG" "WRONGHASH" "SALT" (1000 - 61) 1000
      (.response 200 msgConfirmOkData)).1 =
      .err "SM_E004" "Authorization hash mismatch (4NxWV)" ∧
    (messageCheck "beta.com" witHash emptyGcm emptyB64 msgStore
      "5" "IDENT" "PKG" "WRONGHASH" "SALT" (1000 - 61) 1000
      (.response 200 msgConfirmOkData)).1.respCode ≠ "SM_E005" := by
  constructor
  · decide
  · decide

/-- C1 amended: a message with `timestamp = now - 59` passes the
freshness check and is accepted (when the recomputed hash matches, the
confirm round trip succeeds, and the package decrypts), and a message
with `timestamp = now - 61` whose supplied hash is correct is rejected
with `SM_E005`; with an incorrect (non-blank) supplied hash it is
rejected with `SM_E004` instead, because the hash check precedes the
freshness check. -/
theorem C1_freshness_window
    (domain : String) (H : String → String) (G : AesGcmOps) (B : Base64Ops)
    (st : Store) (recvId ident pkg salt : String) (now : Int)
    (data : MessageConfirmResponseData)
    (c : ConnectionRow) (crest : List ConnectionRow) (sid sdom msgtext : String)
    (hrid : recvId ≠ "") (hic : ident ≠ "") (hpkg : pkg ≠ "") (hsalt : salt ≠ "")
    (hconn : st.connections.filter (fun x =>
      x.self_openmsg_address == recvId ++ "*" ++ domain
        && x.ident_code == ident) = c :: crest)
    (hca : ¬ c.auth_code = "") (hck : ¬ c.message_crypt_key = "")
    (hco : ¬ c.other_openmsg_address = "")
    (haddr : jsSplit (Char.ofNat 42) c.other_openmsg_address = [sid, sdom])
    (hts59 : now - 59 ≠ 0) (hts61 : now - 61 ≠ 0)
    (hh59 : createMessageHash H pkg c.auth_code salt (now - 59) ≠ "")
    (hh61 : createMessageHash H pkg c.auth_code salt (now - 61) ≠ "")
    (herr : optTrue data.error = false) (hsucc : data.success = some true)
    (hdec : decryptMessagePackage G B pkg c.message_crypt_key = some msgtext) :
    messageCheck domain H G B st recvId ident pkg
      (createMessageHash H pkg c.auth_code salt (now - 59)) salt (now - 59) now
      (.response 200 data) =
    (.ok "SM_S888", { st with inbox := st.inbox ++
      [InboxRow.mk (recvId ++ "*" ++ domain) ident
        (createMessageHash H pkg c.auth_code salt (now - 59)) msgtext] }) ∧
    messageCheck domain H G B st recvId ident pkg
      (createMessageHash H pkg c.auth_code salt (now - 61)) salt (now - 61) now
      (.response 200 data) =
    (.err "SM_E005" "Hash is too old (kmqVE)", st) ∧
    ∀ h' : String, h' ≠ "" →
      h' ≠ createMessageHash H pkg c.auth_code salt (now - 61) →
      messageCheck domain H G B st recvId ident pkg h' salt (now - 61) now
        (.response 200 data) =
      (.err "SM_E004" "Authorization hash mismatch (4NxWV)", st) := by
  have hfr59 : ¬ (now - 59 + 60 < now) := by omega
  have hfr61 : now - 61 + 60 < now := by omega
  refine ⟨?_, ?_, ?_⟩
  · simp [messageCheck, hrid, hic, hpkg, hsalt, hts59, hh59, hconn, hca, hck,
      hco, haddr, hfr59, herr, hsucc, hdec]
  · simp [messageCheck, hrid, hic, hpkg, hsalt, hts61, hh61, hconn, hca, hck,
      hco, haddr, hfr61]
  · intro h' hne hwrong
    simp [messageCheck, hrid, hic, hpkg, hsalt, hts61, hne, hconn, hca, hck,
      hco, haddr, hwrong]

/-- Witness for the amended C1 at a concrete connection and times. -/
theorem C1_witness :
    messageCheck "beta.com" witHash helloGcm emptyB64 msgStore
      "5" "IDENT" "PKG"
      (createMessageHash witHash "PKG" "AUTH" "SALT" (1000 - 59)) "SALT"
      (1000 - 59) 1000 (.response 200 msgConfirmOkData) =
    (.ok "SM_S888", { msgStore with inbox := msgStore.inbox ++
      [InboxRow.mk ("5" ++ "*" ++ "beta.com") "IDENT"
        (createMessageHash witHash "PKG" "AUTH" "SALT" (1000 - 59)) "hello"] }) ∧
    messageCheck "beta.com" witHash helloGcm emptyB64 msgStore
      "5" "IDENT" "PKG"
      (createMessageHash witHash "PKG" "AUTH" "SALT" (1000 - 61)) "SALT"
      (1000 - 61) 1000 (.response 200 msgConfirmOkData) =
    (.err "SM_E005" "Hash is too old (kmqVE)", msgStore) ∧
    messageCheck "beta.com" witHash helloGcm emptyB64 msgStore
      "5" "IDENT" "PKG" "ANOTHERHASH" "SALT"
      (1000 - 61) 1000 (.response 200 msgConfirmOkData) =
    (.err "SM_E004" "Authorization hash mismatch (4NxWV)", msgStore) := by
  have h := C1_freshness_window "beta.com" witHash helloGcm emptyB64 msgStore
    "5" "IDENT" "PKG" "SALT" 1000 msgConfirmOkData
    ⟨"5*beta.com", "9*alpha.com", "Alice", true, "AUTH", "IDENT", "KEY"⟩ []
    "9" "alpha.com" "hello"
    (by decide) (by decide) (by decide) (by decide) (by decide) (by decide)
    (by decide) (by decide) (by decide) (by decide) (by decide) (by decide)
    (by decide) (by decide) (by decide) (by decide)
  exact ⟨h.1, h.2.1, h.2.2 "ANOTHERHASH" (by decide) (by decide)⟩

/-! ## C7: message/confirm is one-shot -/

/-- C7: once no OutboxEntry matches a given `(hash, nonce)` — in
particular after the sender-side Outbox→Sent transition has deleted it —
every confirm call returns the not-found failure and leaves the store
unchanged, in both observed variants of the responder; and in the
variant that itself performs the Outbox→Sent move, a successful confirm
deletes the unique matching row, so a second confirm call for the same
`(hash, nonce)` fails with not-found. -/
theorem C7_message_confirm_one_shot (st : Store) (hsh non : String) :
    (st.outbox.filter (outboxMatch hsh non) = [] →
      messageConfirm st hsh non =
        (.err ("Message not found in outbox: " ++ hsh), st) ∧
      messageConfirmLookupOnly st hsh non =
        (.err "Message not found or already confirmed", st)) ∧
    ∀ r : OutboxRow, st.outbox.filter (outboxMatch hsh non) = [r] →
      (messageConfirm st hsh non).1 = .ok ∧
      (messageConfirm (messageConfirm st hsh non).2 hsh non).1 =
        .err ("Message not found in outbox: " ++ hsh) := by
  constructor
  · intro hnil
    constructor
    · simp [messageConfirm, hnil]
    · simp [messageConfirmLookupOnly, hnil]
  · intro r hone
    have hdel : (deleteFirst (outboxMatch hsh non) st.outbox).filter
        (outboxMatch hsh non) = [] := by
      rw [filter_deleteFirst, hone]
      rfl
    constructor
    · simp [messageConfirm, hone]
    · simp [messageConfirm, hone, hdel]

/-- Witness for C7: one confirm succeeds, the immediate repeat fails,
and a lookup with no matching entry fails. -/
theorem C7_witness :
    ((messageConfirm outboxStore "H1" "N1").1 = .ok ∧
      (messageConfirm (messageConfirm outboxStore "H1" "N1").2 "H1" "N1").1 =
        .err ("Message not found in outbox: " ++ "H1")) ∧
    messageConfirm outboxStore "HX" "N1" =
      (.err ("Message not found in outbox: " ++ "HX"), outboxStore) := by
  constructor
  · exact (C7_message_confirm_one_shot outboxStore "H1" "N1").2
      ⟨"5*beta.com", "IDENT", "H1", "N1", "hi"⟩ (by decide)
  · exact ((C7_message_confirm_one_shot outboxStore "HX" "N1").1 (by decide)).1

/-! ## C8: send failure leaves the OutboxEntry, writes no SentEntry -/

/-- C8: when the POST to the recipient's `message/receive` fails with a
transport error or a non-200 status, `sendMessage` returns a failure and
the final store is the initial one plus exactly the OutboxEntry inserted
before transmission — it is not cleaned up or retried, and no SentEntry
is written. -/
theorem C8_send_transport_failure
    (H : String → String) (G : AesGcmOps) (B : Base64Ops) (st : Store)
    (messageText sendingAddr receivingAddr : String)
    (nonce : List Byte) (salt : String) (now : Int)
    (outcome : HttpOutcome MessageReceiveResponseData)
    (c : ConnectionRow) (crest : List ConnectionRow) (rid rdom : String)
    (hconn : st.connections.filter (fun x =>
      x.self_openmsg_address == sendingAddr
        && x.other_openmsg_address == receivingAddr) = c :: crest)
    (haddr : jsSplit (Char.ofNat 42) receivingAddr = [rid, rdom])
    (hfail : receiveTransportFail outcome) :
    (sendMessage H G B st messageText sendingAddr receivingAddr
      nonce salt now outcome).1.isErr = true ∧
    (sendMessage H G B st messageText sendingAddr receivingAddr
      nonce salt now outcome).2 =
    { st with outbox := st.outbox ++
      [OutboxRow.mk sendingAddr c.ident_code
        (createMessageHash H
          (createMessagePackage G B messageText c.message_crypt_key nonce).pkg
          c.auth_code salt now)
        (createMessagePackage G B messageText c.message_crypt_key nonce).nonce
        messageText] } := by
  cases outcome with
  | failure msg =>
    constructor <;> simp [sendMessage, hconn, haddr, MsgReceiveResult.isErr]
  | response status data =>
    have hs : status ≠ 200 := hfail
    constructor <;>
      simp [sendMessage, hconn, haddr, hs, MsgReceiveResult.isErr]

/-- Witness for C8 with a transport failure. -/
theorem C8_witness :
    (sendMessage witHash emptyGcm emptyB64 sendStore "hi" "1*alpha.com"
      "5*beta.com" [] "SALT" 2000 (.failure "socket hang up")).1.isErr = true ∧
    (sendMessage witHash emptyGcm emptyB64 sendStore "hi" "1*alpha.com"
      "5*beta.com" [] "SALT" 2000 (.failure "socket hang up")).2 =
    { sendStore with outbox := sendStore.outbox ++
      [OutboxRow.mk "1*alpha.com" "IDENT"
        (createMessageHash witHash
          (createMessagePackage emptyGcm emptyB64 "hi" "KEY" []).pkg
          "AUTH" "SALT" 2000)
        (createMessagePackage emptyGcm emptyB64 "hi" "KEY" []).nonce
        "hi"] } := by
  exact C8_send_transport_failure witHash emptyGcm emptyB64 sendStore "hi"
    "1*alpha.com" "5*beta.com" [] "SALT" 2000 (.failure "socket hang up")
    ⟨"1*alpha.com", "5*beta.com", "Bob", true, "AUTH", "IDENT", "KEY"⟩ []
    "5" "beta.com" (by decide) (by decide) trivial

/-! ## C4: encrypt/decrypt round trip -/

/-- C4: for a plaintext `m` and key `k`, decrypting the package produced
by `createMessagePackage m k` with the same key returns `m`, and
decrypting it with another key `k2` returns the failure value (`none`,
the source's `false`) rather than raising — given exactly the collaborator
contract of the AEAD primitive at these inputs: a 16-byte nonce and tag,
the base64 round trip, successful primitive decryption under `k`, and
tag-verification failure under `k2`. -/
theorem C4_package_roundtrip
    (G : AesGcmOps) (B : Base64Ops) (m k k2 : String) (nonce : List Byte)
    (hn : nonce.length = 16)
    (htag : (G.tagOf k m).length = 16)
    (hb : B.dec (B.enc (nonce ++ G.enc k m ++ G.tagOf k m)) =
      nonce ++ G.enc k m ++ G.tagOf k m) :
    (G.dec k (G.enc k m) (G.tagOf k m) = some m →
      decryptMessagePackage G B (createMessagePackage G B m k nonce).pkg k =
        some m) ∧
    (G.dec k2 (G.enc k m) (G.tagOf k m) = none →
      decryptMessagePackage G B (createMessagePackage G B m k nonce).pkg k2 =
        none) := by
  have hsl := package_slices nonce (G.enc k m) (G.tagOf k m) hn htag
  constructor
  · intro hdec
    simp only [decryptMessagePackage, createMessagePackage, hb]
    rw [hsl.2, hsl.1, hdec]
  · intro hdec
    simp only [decryptMessagePackage, createMessagePackage, hb]
    rw [hsl.2, hsl.1, hdec]

/-- Witness for C4 at a concrete primitive instance. -/
theorem C4_witness :
    decryptMessagePackage w4Gcm w4B64
      (createMessagePackage w4Gcm w4B64 "hello" "k1" (List.replicate 16 0)).pkg
      "k1" = some "hello" ∧
    decryptMessagePackage w4Gcm w4B64
      (createMessagePackage w4Gcm w4B64 "hello" "k1" (List.replicate 16 0)).pkg
      "k2" = none := by
  have h := C4_package_roundtrip w4Gcm w4B64 "hello" "k1" "k2"
    (List.replicate 16 0) (by decide) (by decide) (by decide)
  exact ⟨h.1 (by decide), h.2 (by decide)⟩

/-! ## C10: decryption ignores the embedded nonce bytes -/

/-- C10: the result of `decryptMessagePackage` does not depend on the
first 16 bytes of the decoded package — for any two packages whose
decodings agree from byte 16 on (and are long enough to carry the
16-byte nonce and 16-byte tag), decryption with the same key returns
identical results: the documented nonce is extracted but never bound
into the decryption call. -/
theorem C10_decrypt_ignores_nonce
    (G : AesGcmOps) (B : Base64Ops) (k p1 p2 : String)
    (hdrop : (B.dec p1).drop 16 = (B.dec p2).drop 16)
    (hlen : 32 ≤ (B.dec p1).length) :
    decryptMessagePackage G B p1 k = decryptMessagePackage G B p2 k := by
  have hl := congrArg List.length hdrop
  simp only [List.length_drop] at hl
  have hlen2 : (B.dec p1).length = (B.dec p2).length := by omega
  have htag : (B.dec p1).drop ((B.dec p1).length - 16) =
      (B.dec p2).drop ((B.dec p2).length - 16) := by
    rw [show (B.dec p1).length - 16 = 16 + ((B.dec p1).length - 32) by omega,
      show (B.dec p2).length - 16 = 16 + ((B.dec p2).length - 32) by omega,
      ← List.drop_drop, ← List.drop_drop, hdrop, hlen2]
  have henc : ((B.dec p1).take ((B.dec p1).length - 16)).drop 16 =
      ((B.dec p2).take ((B.dec p2).length - 16)).drop 16 := by
    rw [List.drop_take, List.drop_take, hdrop, hlen2]
  simp only [decryptMessagePackage]
  rw [htag, henc]

/-- Witness for C10: two decoded packages differing exactly in their 16
leading bytes decrypt identically under a primitive that reads the
ciphertext and tag slices. -/
theorem C10_witness :
    decryptMessagePackage w10Gcm w10B64 "P1" "KEY" =
      decryptMessagePackage w10Gcm w10B64 "P2" "KEY" := by
  exact C10_decrypt_ignores_nonce w10Gcm w10B64 "KEY" "P1" "P2"
    (by decide) (by decide)

end CleanSend
